import Mathlib

/-!
Shallow embedding of the `ibc-rs` relayer core covered by the spec:
the channel handshake driver (`relayer/src/channel.rs`), the supervisor
event classifier and subscription bootstrap (`relayer/src/supervisor.rs`),
and the query request marshalling (`relayer/src/chain/requests.rs`).

Chain RPC interactions (queries, message submission) are external
collaborators; they are modelled as explicit inputs (oracle values) to the
embedded functions, so every embedded function is a pure, executable Lean
function of the source's control flow over those inputs.
-/

namespace IbcRelayer

/-- Identifier of a chain (string form of `ChainId`). -/
abbrev ChainId := String

/-- Identifier of an on-chain light client (`ClientId`). -/
abbrev ClientId := String

/-- Identifier of a connection end (`ConnectionId`). -/
abbrev ConnectionId := String

/-- Identifier of a channel end (`ChannelId`). -/
abbrev ChannelId := String

/-- Identifier of a port (`PortId`). -/
abbrev PortId := String

/-- Channel end state, `ibc::ics04_channel::channel::State`. -/
inductive State where
  | uninitialized
  | init
  | tryOpen
  | open_
  | closed
deriving DecidableEq, Repr

/-- The numeric discriminant of `State`, as used by the `as u32` cast in
`check_destination_channel_state` (`Uninitialized = 0`, `Init = 1`,
`TryOpen = 2`, `Open = 3`, `Closed = 4`). -/
def State.asU32 : State → Nat
  | .uninitialized => 0
  | .init => 1
  | .tryOpen => 2
  | .open_ => 3
  | .closed => 4

/-- Channel ordering, `ibc::ics04_channel::channel::Order`. -/
inductive Order where
  | noOrder
  | unordered
  | ordered
deriving DecidableEq, Repr

/-- Embeds `ibc::ics04_channel::channel::Counterparty`: the remote end recorded in
an on-chain `ChannelEnd`. -/
structure Counterparty where
  port_id : PortId
  channel_id : Option ChannelId
deriving DecidableEq, Repr

/-- On-chain channel end, `ibc::ics04_channel::channel::ChannelEnd`:
`{ state, ordering, remote, connection_hops, version }`. -/
structure ChannelEnd where
  state : State
  ordering : Order
  remote : Counterparty
  connection_hops : List ConnectionId
  version : String
deriving DecidableEq, Repr

/-- One side of the handshake driver, `relayer::channel::ChannelSide`
(the phantom chain tags of the source are erased; the `chain` handle is
represented by its chain id). -/
structure ChannelSide where
  chain_id : ChainId
  client_id : ClientId
  connection_id : ConnectionId
  port_id : PortId
  channel_id : Option ChannelId
deriving DecidableEq, Repr

/-- The two-sided handshake driver state, `relayer::channel::Channel`
(`connection_delay` is carried in milliseconds). -/
structure Channel where
  ordering : Order
  a_side : ChannelSide
  b_side : ChannelSide
  connection_delay : Nat
  version : Option String
deriving DecidableEq, Repr

/-- Embeds `Channel::flipped`: swaps the two sides. -/
def Channel.flipped (c : Channel) : Channel :=
  { ordering := c.ordering
    a_side := c.b_side
    b_side := c.a_side
    connection_delay := c.connection_delay
    version := c.version }

/-- Attributes carried by a channel handshake event
(`ibc::ics04_channel::events::Attributes`), extended with the counterparty
chain and client resolution that the object constructors of
`relayer/src/object.rs` obtain by querying the source chain. -/
structure ChannelAttributes where
  port_id : PortId
  channel_id : Option ChannelId
  connection_id : ConnectionId
  counterparty_port_id : PortId
  counterparty_channel_id : Option ChannelId
  counterparty_chain_id : Option ChainId
  counterparty_client_id : Option ClientId
deriving DecidableEq, Repr

/-- Attributes of an `UpdateClient` event, extended with the counterparty
chain resolution performed by `Object::for_update_client`. -/
structure UpdateClientAttributes where
  client_id : ClientId
  counterparty_chain_id : Option ChainId
deriving DecidableEq, Repr

/-- Attributes of a packet event (`SendPacket` and friends). -/
structure PacketAttributes where
  src_port_id : PortId
  src_channel_id : ChannelId
  counterparty_chain_id : Option ChainId
deriving DecidableEq, Repr

/-- Attributes of a connection handshake event. -/
structure ConnectionAttributes where
  connection_id : Option ConnectionId
  counterparty_chain_id : Option ChainId
deriving DecidableEq, Repr

/-- The events of `ibc::events::IbcEvent` that the relayer core inspects;
every other variant is collapsed into `other`. -/
inductive IbcEvent where
  | newBlock (height : Nat)
  | updateClient (u : UpdateClientAttributes)
  | openInitConnection (a : ConnectionAttributes)
  | openTryConnection (a : ConnectionAttributes)
  | openAckConnection (a : ConnectionAttributes)
  | openInitChannel (a : ChannelAttributes)
  | openTryChannel (a : ChannelAttributes)
  | openAckChannel (a : ChannelAttributes)
  | openConfirmChannel (a : ChannelAttributes)
  | closeInitChannel (a : ChannelAttributes)
  | sendPacket (p : PacketAttributes)
  | timeoutPacket (p : PacketAttributes)
  | writeAcknowledgement (p : PacketAttributes)
  | chainError (message : String)
  | other
deriving DecidableEq, Repr

/-- The error kinds of `relayer::channel::ChannelError` that the embedded
control flow can produce. `partOpenHandshake` models the source's
`PartialOpenHandshake(expected_a, expected_b)` detail. -/
inductive ChannelError where
  | query (chain : ChainId)
  | submit (chain : ChainId)
  | txResponse (e : String)
  | invalidEvent (e : IbcEvent)
  | missingEvent (reason : String)
  | missingLocalChannelId
  | missingCounterpartyChannelId
  | missingCounterpartyConnection
  | missingChannelOnDestination
  | channelAlreadyExist (id : ChannelId)
  | mismatchPort (dst_chain : ChainId) (dst_port : PortId) (src_chain : ChainId)
      (counterparty_port : PortId) (src_channel : ChannelId)
  | partOpenHandshake (a : State) (b : State)
  | handshakeFinalize (chain : ChainId)
deriving DecidableEq, Repr

/-- Embeds `relayer::channel::check_destination_channel_state`: compatibility check
between the channel end queried on the destination and the expected one.
Success requires: existing state (as `u32`) at most the expected state,
equal connection hops, and the existing counterparty channel id either
unset or, together with the counterparty port id, equal to the expected
counterparty. Failure is `channel_already_exist(channel_id)`. -/
def check_destination_channel_state (channel_id : ChannelId)
    (existing_channel expected_channel : ChannelEnd) :
    Except ChannelError Unit :=
  let good_connection_hops :=
    existing_channel.connection_hops == expected_channel.connection_hops
  let good_state :=
    existing_channel.state.asU32 ≤ expected_channel.state.asU32
  let good_channel_port_ids :=
    existing_channel.remote.channel_id.isNone
    || (existing_channel.remote.channel_id == expected_channel.remote.channel_id
        && existing_channel.remote.port_id == expected_channel.remote.port_id)
  if good_state && good_connection_hops && good_channel_port_ids then
    Except.ok ()
  else
    Except.error (ChannelError.channelAlreadyExist channel_id)

/-- Proof-carrying ICS4 message kinds, `relayer::channel::ChannelMsgType`. -/
inductive ChannelMsgType where
  | openTry
  | openAck
  | openConfirm
  | closeConfirm
deriving DecidableEq, Repr

/-- Embeds `Channel::dst_version`: the driver's version if set, otherwise the
result of the destination chain's `module_version` query (passed as the
oracle input `dst_module_version`). -/
def Channel.dst_version (c : Channel) (dst_module_version : String) : String :=
  c.version.getD dst_module_version

/-- Embeds `Channel::src_version`: the driver's version if set, otherwise the
result of the source chain's `module_version` query. -/
def Channel.src_version (c : Channel) (src_module_version : String) : String :=
  c.version.getD src_module_version

/-- Embeds `Channel::validated_expected_channel`: builds the expected destination
`ChannelEnd` for the message type (highest state `TryOpen` for
OpenAck/OpenConfirm, `Open` for CloseConfirm; counterparty, hops and
version from the driver), then checks the queried destination channel
(oracle input `dst_channel_query`, the result of `query_channel` on the
destination): a destination in state `Uninitialized` fails with
`missing_channel_on_destination`; otherwise the compatibility check of
`check_destination_channel_state` decides between success and
`channel_already_exist`. -/
def Channel.validated_expected_channel (c : Channel)
    (msg_type : ChannelMsgType) (dst_module_version : String)
    (dst_channel_query : Except ChannelError ChannelEnd) :
    Except ChannelError ChannelEnd :=
  match c.b_side.channel_id with
  | none => Except.error ChannelError.missingCounterpartyChannelId
  | some dst_channel_id =>
    let counterparty : Counterparty :=
      { port_id := c.a_side.port_id, channel_id := c.a_side.channel_id }
    let highest_state :=
      match msg_type with
      | ChannelMsgType.openAck => State.tryOpen
      | ChannelMsgType.openConfirm => State.tryOpen
      | ChannelMsgType.closeConfirm => State.open_
      | _ => State.uninitialized
    let dst_expected_channel : ChannelEnd :=
      { state := highest_state
        ordering := c.ordering
        remote := counterparty
        connection_hops := [c.b_side.connection_id]
        version := c.dst_version dst_module_version }
    match dst_channel_query with
    | Except.error e => Except.error e
    | Except.ok dst_channel =>
      if dst_channel.state = State.uninitialized then
        Except.error ChannelError.missingChannelOnDestination
      else
        match check_destination_channel_state dst_channel_id dst_channel
            dst_expected_channel with
        | Except.error e => Except.error e
        | Except.ok _ => Except.ok dst_expected_channel

/-- The chain a handshake message is submitted to: the driver's `a_side`
chain or its `b_side` chain. A call on `self` submits to the b-side chain
(`dst_chain`); a call on `self.flipped()` submits to the a-side chain. -/
inductive ChainTag where
  | chainA
  | chainB
deriving DecidableEq, Repr

/-- The handshake message kind of a submission made by
`do_chan_open_finalize`. -/
inductive HandshakeMsg where
  | ack
  | confirm
deriving DecidableEq, Repr

/-- One message submission performed by the finalize step: which chain it
was sent to and which handshake message it carried. -/
structure Submission where
  target : ChainTag
  msg : HandshakeMsg
deriving DecidableEq, Repr

/-- Oracle for the chain interactions of `do_chan_open_finalize`:
`query n` is the result of the `n`-th `query_channel_states` call (the
pair of channel states on chains A and B), and `send n` is the outcome of
the `n`-th `build_chan_open_{ack,confirm}_and_send` submission. -/
structure FinalizeOracle where
  query : Nat → State × State
  send : Nat → Except ChannelError Unit

/-- Embeds `expect_channel_states` inside `do_chan_open_finalize`: re-query both
ends (the `qi`-th query) and require the pair `(a1, b1)`; on mismatch
return the `PartialOpenHandshake(a1, b1)` error to trigger a retry. -/
def expect_channel_states (o : FinalizeOracle) (qi : Nat) (a1 b1 : State) :
    Except ChannelError Unit :=
  let (a2, b2) := o.query qi
  if a1 = a2 ∧ b1 = b2 then Except.ok ()
  else Except.error (ChannelError.partOpenHandshake a1 b1)

/-- A finalize branch that performs one submission (a lone Confirm) and
then expects both ends `Open`: the submission trace and the result. -/
def finalizeOneSend (o : FinalizeOracle) (s1 : Submission) :
    List Submission × Except ChannelError Unit :=
  match o.send 0 with
  | Except.error e => ([s1], Except.error e)
  | Except.ok _ =>
    match expect_channel_states o 1 State.open_ State.open_ with
    | Except.error e => ([s1], Except.error e)
    | Except.ok _ => ([s1], Except.ok ())

/-- A finalize branch that performs two submissions (Ack then Confirm),
expecting states `(e1a, e1b)` between them and `(Open, Open)` at the end. -/
def finalizeTwoSends (o : FinalizeOracle) (s1 : Submission)
    (e1a e1b : State) (s2 : Submission) :
    List Submission × Except ChannelError Unit :=
  match o.send 0 with
  | Except.error e => ([s1], Except.error e)
  | Except.ok _ =>
    match expect_channel_states o 1 e1a e1b with
    | Except.error e => ([s1], Except.error e)
    | Except.ok _ =>
      match o.send 1 with
      | Except.error e => ([s1, s2], Except.error e)
      | Except.ok _ =>
        match expect_channel_states o 2 State.open_ State.open_ with
        | Except.error e => ([s1, s2], Except.error e)
        | Except.ok _ => ([s1, s2], Except.ok ())

/-- Embeds `Channel::do_chan_open_finalize`: query both ends' states (query 0) and
dispatch on the pair, submitting handshake messages and confirming the
expected state progression after each submission. The first component is
the trace of submissions attempted, in order; a submission on `self`
targets chain B and a submission on `self.flipped()` targets chain A,
mirroring the source's use of `flipped()`:
- `(Init, TryOpen)` and `(TryOpen, TryOpen)`: Ack via `flipped` (chain A),
  expect `(Open, TryOpen)`, Confirm on `self` (chain B), expect
  `(Open, Open)`;
- `(TryOpen, Init)`: Ack via `flipped` (chain A), expect
  `(TryOpen, Open)`, Confirm via `flipped` (chain A), expect
  `(Open, Open)`;
- `(Open, TryOpen)`: Confirm on `self` (chain B);
- `(TryOpen, Open)`: Confirm via `flipped` (chain A);
- `(Open, Open)` and every remaining pair: no submission, success. -/
def do_chan_open_finalize (o : FinalizeOracle) :
    List Submission × Except ChannelError Unit :=
  match o.query 0 with
  | (State.init, State.tryOpen) =>
    finalizeTwoSends o ⟨ChainTag.chainA, HandshakeMsg.ack⟩
      State.open_ State.tryOpen ⟨ChainTag.chainB, HandshakeMsg.confirm⟩
  | (State.tryOpen, State.tryOpen) =>
    finalizeTwoSends o ⟨ChainTag.chainA, HandshakeMsg.ack⟩
      State.open_ State.tryOpen ⟨ChainTag.chainB, HandshakeMsg.confirm⟩
  | (State.tryOpen, State.init) =>
    finalizeTwoSends o ⟨ChainTag.chainA, HandshakeMsg.ack⟩
      State.tryOpen State.open_ ⟨ChainTag.chainA, HandshakeMsg.confirm⟩
  | (State.open_, State.tryOpen) =>
    finalizeOneSend o ⟨ChainTag.chainB, HandshakeMsg.confirm⟩
  | (State.tryOpen, State.open_) =>
    finalizeOneSend o ⟨ChainTag.chainA, HandshakeMsg.confirm⟩
  | (State.open_, State.open_) => ([], Except.ok ())
  | _ => ([], Except.ok ())

/-- The event scan of `build_chan_open_init_and_send` over the events
returned by `send_msgs`: the first `OpenInitChannel` event is returned,
a `ChainError` event seen before it yields a `TxResponse` error, and if
neither occurs the result is a `MissingEvent` error. -/
def scan_chan_open_init_events : List IbcEvent → Except ChannelError IbcEvent
  | [] => Except.error
      (ChannelError.missingEvent "no chan init event was in the response")
  | e :: rest =>
    match e with
    | IbcEvent.openInitChannel _ => Except.ok e
    | IbcEvent.chainError m => Except.error (ChannelError.txResponse m)
    | _ => scan_chan_open_init_events rest

/-- The event scan of `build_chan_open_try_and_send`: first
`OpenTryChannel` event, `ChainError` giving `TxResponse`, otherwise
`MissingEvent`. -/
def scan_chan_open_try_events : List IbcEvent → Except ChannelError IbcEvent
  | [] => Except.error
      (ChannelError.missingEvent "no chan try event was in the response")
  | e :: rest =>
    match e with
    | IbcEvent.openTryChannel _ => Except.ok e
    | IbcEvent.chainError m => Except.error (ChannelError.txResponse m)
    | _ => scan_chan_open_try_events rest

/-- The event scan of `build_chan_open_ack_and_send`: the source `find`s
the first event that is `OpenAckChannel` or `ChainError` and then maps
`OpenAckChannel` to success and `ChainError` to `TxResponse`; no such
event yields `MissingEvent`. -/
def scan_chan_open_ack_events : List IbcEvent → Except ChannelError IbcEvent
  | [] => Except.error
      (ChannelError.missingEvent "no chan ack event was in the response")
  | e :: rest =>
    match e with
    | IbcEvent.openAckChannel _ => Except.ok e
    | IbcEvent.chainError m => Except.error (ChannelError.txResponse m)
    | _ => scan_chan_open_ack_events rest

/-- The event scan of `build_chan_open_confirm_and_send`: the first
`OpenConfirmChannel` event is accepted, but a `ChainError` event is mapped
to `ChannelError::invalid_event(event)` (not `tx_response`); no relevant
event yields `MissingEvent`. -/
def scan_chan_open_confirm_events :
    List IbcEvent → Except ChannelError IbcEvent
  | [] => Except.error
      (ChannelError.missingEvent "no chan confirm event was in the response")
  | e :: rest =>
    match e with
    | IbcEvent.openConfirmChannel _ => Except.ok e
    | IbcEvent.chainError m =>
      Except.error (ChannelError.invalidEvent (IbcEvent.chainError m))
    | _ => scan_chan_open_confirm_events rest

/-- The domain message built by `build_chan_open_try`
(`MsgChannelOpenTry`, with the proof, signer and client-update fields of
the wire message elided as external collaborators). -/
structure MsgChannelOpenTry where
  port_id : PortId
  previous_channel_id : Option ChannelId
  counterparty_version : String
  channel : ChannelEnd
deriving DecidableEq, Repr

/-- Embeds `Channel::build_chan_open_try`: requires the source channel id to be
set; takes the channel end queried on the source chain (oracle input
`src_channel`) and the two `module_version` query results; rejects a
source whose recorded counterparty port differs from the driver's
destination port with `mismatch_port`; otherwise builds the OpenTry
message whose `previous_channel_id` is the b-side channel id held in the
driver when the queried source counterparty channel id is unset, and the
queried source counterparty channel id otherwise. The client-update,
proof-query and signer steps of the source are external interactions that
do not alter the message fields modelled here. -/
def Channel.build_chan_open_try (c : Channel) (src_channel : ChannelEnd)
    (dst_module_version src_module_version : String) :
    Except ChannelError MsgChannelOpenTry :=
  match c.a_side.channel_id with
  | none => Except.error ChannelError.missingLocalChannelId
  | some src_channel_id =>
  let dst_port_id := src_channel.remote.port_id
  if dst_port_id ≠ c.b_side.port_id then
    Except.error (ChannelError.mismatchPort c.b_side.chain_id c.b_side.port_id
      c.a_side.chain_id dst_port_id src_channel_id)
  else
    let counterparty : Counterparty :=
      { port_id := c.a_side.port_id, channel_id := c.a_side.channel_id }
    let channel : ChannelEnd :=
      { state := State.tryOpen
        ordering := src_channel.ordering
        remote := counterparty
        connection_hops := [c.b_side.connection_id]
        version := c.dst_version dst_module_version }
    let previous_channel_id :=
      if src_channel.remote.channel_id.isNone then
        c.b_side.channel_id
      else
        src_channel.remote.channel_id
    Except.ok
      { port_id := c.b_side.port_id
        previous_channel_id := previous_channel_id
        counterparty_version := c.src_version src_module_version
        channel := channel }

/-- A revision-scoped chain height (`ibc::Height`). -/
structure Height where
  revision_number : Nat
  revision_height : Nat
deriving DecidableEq, Repr

/-- Embeds `relayer::chain::requests::HeightQuery`: a query is either at the
latest height or at a specific height. -/
inductive HeightQuery where
  | latest
  | specific (h : Height)
deriving DecidableEq, Repr

/-- Marshalling error of the `TryFrom` conversions in
`relayer/src/chain/requests.rs`. -/
inductive RequestError where
  | invalidHeight
deriving DecidableEq, Repr

/-- Largest value accepted by `tendermint::block::Height::try_from(u64)`:
tendermint heights are `i64`-bounded. -/
def i64MaxNat : Nat := 2 ^ 63 - 1

/-- Embeds the conversion `TryFrom<HeightQuery>` for the tendermint block height: `Latest` maps to
the sentinel `0`, `Specific(h)` to `h.revision_height`, and the value is
then range-checked by the tendermint height conversion. -/
def heightQueryToBlockHeight (q : HeightQuery) : Except RequestError Nat :=
  let height : Nat :=
    match q with
    | HeightQuery.latest => 0
    | HeightQuery.specific h => h.revision_height
  if height ≤ i64MaxNat then Except.ok height
  else Except.error RequestError.invalidHeight

/-- Embeds the conversion `TryFrom<HeightQuery>` for `AsciiMetadataValue`: `Latest` maps to the
sentinel `0`, `Specific(h)` to `h.revision_height`, and the value is
rendered in decimal (parsing a decimal numeral as an ASCII metadata value
always succeeds). -/
def heightQueryToMetadataValue (q : HeightQuery) :
    Except RequestError String :=
  let height : Nat :=
    match q with
    | HeightQuery.latest => 0
    | HeightQuery.specific h => h.revision_height
  Except.ok (Nat.repr height)

/-- Embeds `relayer::chain::requests::PageRequest`. -/
structure PageRequest where
  key : List Nat
  offset : Nat
  limit : Nat
  count_total : Bool
  reverse : Bool
deriving DecidableEq, Repr

/-- Embeds `PageRequest::all()`: maximal limit, all other fields default. -/
def PageRequest.all : PageRequest :=
  { key := []
    offset := 0
    limit := 2 ^ 64 - 1
    count_total := false
    reverse := false }

/-- The `Client` relay object: tracks one on-chain light client. -/
structure ClientObj where
  dst_chain : ChainId
  dst_client_id : ClientId
  src_chain : ChainId
deriving DecidableEq, Repr

/-- The `Connection` relay object: tracks one end of a connection. -/
structure ConnectionObj where
  src_chain : ChainId
  src_connection_id : ConnectionId
  dst_chain : ChainId
deriving DecidableEq, Repr

/-- The `Channel` relay object: tracks one end of a channel's handshake
progression. -/
structure ChannelObj where
  src_chain : ChainId
  src_channel_id : ChannelId
  src_port_id : PortId
  dst_chain : ChainId
deriving DecidableEq, Repr

/-- The `Packet` relay object: tracks packet flow over an opened channel. -/
structure PacketObj where
  src_chain : ChainId
  src_channel_id : ChannelId
  src_port_id : PortId
  dst_chain : ChainId
deriving DecidableEq, Repr

/-- Embeds `relayer::object::Object`: the key identifying one relay task. -/
inductive Object where
  | client (o : ClientObj)
  | connection (o : ConnectionObj)
  | channel (o : ChannelObj)
  | packet (o : PacketObj)
deriving DecidableEq, Repr

/-- Embeds `Object::src_chain_id`: the source chain of the relay object. -/
def Object.src_chain_id : Object → ChainId
  | Object.client o => o.src_chain
  | Object.connection o => o.src_chain
  | Object.channel o => o.src_chain
  | Object.packet o => o.src_chain

/-- Modelled from the spec: `Object::for_update_client` of
`relayer/src/object.rs` (file not under `src/`). Builds the client object
for an `UpdateClient` event observed on `src_chain`; per spec section 3,
a `Client` object is `{ dst_chain, dst_client_id, src_chain }`, the event
chain being the chain hosting the client (`dst_chain`) and the
counterparty resolution giving `src_chain`; unresolvable events yield
`none`. -/
def Object.for_update_client (u : UpdateClientAttributes)
    (src_chain : ChainId) : Option Object :=
  match u.counterparty_chain_id with
  | some counterparty =>
    some (Object.client
      { dst_chain := src_chain
        dst_client_id := u.client_id
        src_chain := counterparty })
  | none => none

/-- Modelled from the spec: `Object::connection_from_conn_open_events` of
`relayer/src/object.rs` (file not under `src/`). Builds the connection
object for a connection handshake event observed on `src_chain`;
unresolvable events yield `none`. -/
def Object.connection_from_conn_open_events (a : ConnectionAttributes)
    (src_chain : ChainId) : Option Object :=
  match a.connection_id, a.counterparty_chain_id with
  | some conn, some dst =>
    some (Object.connection
      { src_chain := src_chain, src_connection_id := conn, dst_chain := dst })
  | _, _ => none

/-- Modelled from the spec: `Object::client_from_chan_open_events` of
`relayer/src/object.rs` (file not under `src/`). Builds the client object
for a channel handshake event observed on `src_chain`; per spec section 8
scenario 4 its `src_chain` field is the event chain; unresolvable events
yield `none`. -/
def Object.client_from_chan_open_events (a : ChannelAttributes)
    (src_chain : ChainId) : Option Object :=
  match a.counterparty_chain_id, a.counterparty_client_id with
  | some dst, some cl =>
    some (Object.client
      { dst_chain := dst, dst_client_id := cl, src_chain := src_chain })
  | _, _ => none

/-- Modelled from the spec: `Object::channel_from_chan_open_events` of
`relayer/src/object.rs` (file not under `src/`). Builds the channel object
for a channel handshake event observed on `src_chain`; unresolvable events
yield `none`. -/
def Object.channel_from_chan_open_events (a : ChannelAttributes)
    (src_chain : ChainId) : Option Object :=
  match a.channel_id, a.counterparty_chain_id with
  | some ch, some dst =>
    some (Object.channel
      { src_chain := src_chain
        src_channel_id := ch
        src_port_id := a.port_id
        dst_chain := dst })
  | _, _ => none

/-- Modelled from the spec: `Object::packet_from_chan_open_events` of
`relayer/src/object.rs` (file not under `src/`). Builds the packet object
for a channel handshake event observed on `src_chain`; unresolvable events
yield `none`. -/
def Object.packet_from_chan_open_events (a : ChannelAttributes)
    (src_chain : ChainId) : Option Object :=
  match a.channel_id, a.counterparty_chain_id with
  | some ch, some dst =>
    some (Object.packet
      { src_chain := src_chain
        src_channel_id := ch
        src_port_id := a.port_id
        dst_chain := dst })
  | _, _ => none

/-- Modelled from the spec: the `Object::for_send_packet`,
`for_timeout_packet` and `for_write_ack` constructors of
`relayer/src/object.rs` (file not under `src/`), which all build the
packet object of the packet's source channel end on the event chain. -/
def Object.for_packet_event (p : PacketAttributes) (src_chain : ChainId) :
    Option Object :=
  match p.counterparty_chain_id with
  | some dst =>
    some (Object.packet
      { src_chain := src_chain
        src_channel_id := p.src_channel_id
        src_port_id := p.src_port_id
        dst_chain := dst })
  | none => none

/-- Modelled from the spec: `Object::for_close_init_channel` of
`relayer/src/object.rs` (file not under `src/`): the packet object of the
closing channel end on the event chain. -/
def Object.for_close_init_channel (a : ChannelAttributes)
    (src_chain : ChainId) : Option Object :=
  Object.packet_from_chan_open_events a src_chain

/-- The per-object-kind enable flags of `config.mode`. -/
structure ModeConfig where
  clients_enabled : Bool
  connections_enabled : Bool
  channels_enabled : Bool
  packets_enabled : Bool
deriving DecidableEq, Repr

/-- An event batch emitted by one chain subscription. -/
structure EventBatch where
  chain_id : ChainId
  height : Nat
  events : List IbcEvent
deriving DecidableEq, Repr

/-- The `per_object` association map of `CollectedEvents`: the keys are
`Object`s, each mapped to the events collected for it (the source uses a
`BTreeMap`; an association list with unique keys carries the same
contents). -/
abbrev PerObject := List (Object × List IbcEvent)

/-- Embeds `entry(object).or_default().push(event)`: append `e` to the entry of
`o`, inserting a fresh entry at the end when `o` has none. -/
def pushEvent (m : PerObject) (o : Object) (e : IbcEvent) : PerObject :=
  match m with
  | [] => [(o, [e])]
  | (o', es) :: rest =>
    if o' = o then (o', es ++ [e]) :: rest
    else (o', es) :: pushEvent rest o e

/-- Embeds `relayer::supervisor::CollectedEvents`. -/
structure CollectedEvents where
  height : Nat
  chain_id : ChainId
  new_block : Option IbcEvent
  per_object : PerObject
deriving Repr

/-- Embeds `CollectedEvents::new`. -/
def CollectedEvents.new (height : Nat) (chain_id : ChainId) :
    CollectedEvents :=
  { height := height, chain_id := chain_id, new_block := none,
    per_object := [] }

/-- Embeds `relayer::supervisor::collect_event`: if `enabled`, build the object
with `object_ctor` and, when it resolves, push the event onto its
`per_object` entry. -/
def collect_event (collected : CollectedEvents) (event : IbcEvent)
    (enabled : Bool) (object_ctor : Unit → Option Object) :
    CollectedEvents :=
  if enabled then
    match object_ctor () with
    | some object =>
      { collected with per_object := pushEvent collected.per_object object event }
    | none => collected
  else collected

/-- The per-event dispatch of `relayer::supervisor::collect_events`
(`workers_contains` is the `WorkerMap::contains` predicate consulted for
`UpdateClient` events):
- `NewBlock` is stored in `new_block`;
- `UpdateClient` is collected under clients mode, and only when a worker
  for the client object already exists;
- connection handshake events are collected under connections mode;
- `OpenInitChannel`/`OpenTryChannel` under channels mode;
- `OpenAckChannel` is collected up to three times: client object under
  clients mode, packet object under packets mode, channel object under
  channels mode;
- `OpenConfirmChannel` is collected as client object under clients mode
  and packet object under packets mode (no channel object);
- `SendPacket`, `TimeoutPacket`, `WriteAcknowledgement` and
  `CloseInitChannel` are collected as packet objects under packets mode;
- everything else is ignored. -/
def collect_events_step (mode : ModeConfig)
    (workers_contains : Object → Bool) (src_chain : ChainId)
    (collected : CollectedEvents) (event : IbcEvent) : CollectedEvents :=
  match event with
  | IbcEvent.newBlock _ => { collected with new_block := some event }
  | IbcEvent.updateClient u =>
    collect_event collected event mode.clients_enabled (fun _ =>
      match Object.for_update_client u src_chain with
      | some object => if workers_contains object then some object else none
      | none => none)
  | IbcEvent.openInitConnection a =>
    collect_event collected event mode.connections_enabled (fun _ =>
      Object.connection_from_conn_open_events a src_chain)
  | IbcEvent.openTryConnection a =>
    collect_event collected event mode.connections_enabled (fun _ =>
      Object.connection_from_conn_open_events a src_chain)
  | IbcEvent.openAckConnection a =>
    collect_event collected event mode.connections_enabled (fun _ =>
      Object.connection_from_conn_open_events a src_chain)
  | IbcEvent.openInitChannel a =>
    collect_event collected event mode.channels_enabled (fun _ =>
      Object.channel_from_chan_open_events a src_chain)
  | IbcEvent.openTryChannel a =>
    collect_event collected event mode.channels_enabled (fun _ =>
      Object.channel_from_chan_open_events a src_chain)
  | IbcEvent.openAckChannel a =>
    let collected := collect_event collected event mode.clients_enabled
      (fun _ => Object.client_from_chan_open_events a src_chain)
    let collected := collect_event collected event mode.packets_enabled
      (fun _ => Object.packet_from_chan_open_events a src_chain)
    collect_event collected event mode.channels_enabled
      (fun _ => Object.channel_from_chan_open_events a src_chain)
  | IbcEvent.openConfirmChannel a =>
    let collected := collect_event collected event mode.clients_enabled
      (fun _ => Object.client_from_chan_open_events a src_chain)
    collect_event collected event mode.packets_enabled
      (fun _ => Object.packet_from_chan_open_events a src_chain)
  | IbcEvent.sendPacket p =>
    collect_event collected event mode.packets_enabled
      (fun _ => Object.for_packet_event p src_chain)
  | IbcEvent.timeoutPacket p =>
    collect_event collected event mode.packets_enabled
      (fun _ => Object.for_packet_event p src_chain)
  | IbcEvent.writeAcknowledgement p =>
    collect_event collected event mode.packets_enabled
      (fun _ => Object.for_packet_event p src_chain)
  | IbcEvent.closeInitChannel a =>
    collect_event collected event mode.packets_enabled
      (fun _ => Object.for_close_init_channel a src_chain)
  | _ => collected

/-- Embeds `relayer::supervisor::collect_events`: fold the per-event dispatch
over the batch, starting from `CollectedEvents::new`. -/
def collect_events (mode : ModeConfig) (workers_contains : Object → Bool)
    (src_chain : ChainId) (batch : EventBatch) : CollectedEvents :=
  batch.events.foldl (collect_events_step mode workers_contains src_chain)
    (CollectedEvents.new batch.height batch.chain_id)

/-- The workers newly spawned by `process_batch` for a collection result:
for each `per_object` entry, `workers.get_or_spawn(object, ...)` spawns a
worker exactly when none exists yet for that key. -/
def newlySpawnedWorkers (workers_contains : Object → Bool)
    (collected : CollectedEvents) : List Object :=
  (collected.per_object.map Prod.fst).filter
    (fun o => ! workers_contains o)

/-- The error kinds of `relayer::supervisor::error::Error` the embedded
supervisor control flow distinguishes. -/
inductive SupervisorError where
  | noChainsAvailable
  | spawnFailed (chain : ChainId)
  | workerFailed (chain : ChainId)
deriving DecidableEq, Repr

/-- One configured chain together with the outcomes of the external calls
`init_subscriptions` makes for it: whether spawning the chain runtime
would succeed (`Registry::get_or_spawn` on a chain not yet in the
registry) and whether `subscribe` succeeds on its handle. -/
structure ChainBootOutcome where
  id : ChainId
  spawn_ok : Bool
  subscribe_ok : Bool
deriving DecidableEq, Repr

/-- The per-chain loop of `init_subscriptions`: thread the registry (the
set of live chain handles, represented by their ids) through the chain
list, skipping any chain whose `get_or_spawn` or `subscribe` fails. A
chain already in the registry spawns trivially. Returns the final
registry contents and the chain ids with live subscriptions, in order. -/
def initSubscriptionsLoop :
    List ChainId → List ChainBootOutcome → List ChainId × List ChainId
  | registry, [] => (registry, [])
  | registry, c :: rest =>
    if c.id ∈ registry then
      let r := initSubscriptionsLoop registry rest
      (r.1, if c.subscribe_ok then c.id :: r.2 else r.2)
    else if c.spawn_ok then
      let r := initSubscriptionsLoop (registry ++ [c.id]) rest
      (r.1, if c.subscribe_ok then c.id :: r.2 else r.2)
    else
      initSubscriptionsLoop registry rest

/-- Embeds `relayer::supervisor::init_subscriptions`: subscribe to every
configured chain, skipping those whose spawn or subscribe fails, and fail
with `NoChainsAvailable` exactly when the registry holds no chain handle
afterwards (`registry.size() == 0`). On success the subscription list
(possibly empty) is returned together with the final registry. -/
def init_subscriptions (registry : List ChainId)
    (chains : List ChainBootOutcome) :
    Except SupervisorError (List ChainId × List ChainId) :=
  let r := initSubscriptionsLoop registry chains
  if r.1.length = 0 then
    Except.error SupervisorError.noChainsAvailable
  else
    Except.ok (r.1, r.2)

/-- The subscription-rebuild handling of `Supervisor::run_step` after a
`ConfigChanged` effect: a successful rebuild replaces the subscription
set, a `NoChainsAvailable` rebuild error keeps the previous set, and any
other rebuild error is fatal (returned to the caller). -/
def applySubscriptionRebuild (old_subs : List ChainId)
    (rebuild : Except SupervisorError (List ChainId × List ChainId)) :
    Except SupervisorError (List ChainId) :=
  match rebuild with
  | Except.ok (_, subs) => Except.ok subs
  | Except.error SupervisorError.noChainsAvailable => Except.ok old_subs
  | Except.error e => Except.error e

/-- The startup path of `Supervisor::run_without_health_check`: the result
of `init_subscriptions` is propagated with `?`, so a `NoChainsAvailable`
error at startup aborts the run. -/
def startupSubscriptions (registry : List ChainId)
    (chains : List ChainBootOutcome) :
    Except SupervisorError (List ChainId) :=
  match init_subscriptions registry chains with
  | Except.error e => Except.error e
  | Except.ok (_, subs) => Except.ok subs

/-- The expected destination state named by the specification for each
validated message type: `TryOpen` for OpenAck and OpenConfirm, `Open` for
CloseConfirm (stated from the spec's words, for comparison with the
source's `highest_state` match). -/
def claimedHighestState : ChannelMsgType → State
  | ChannelMsgType.closeConfirm => State.open_
  | _ => State.tryOpen

/-- The compatibility condition the specification states for the queried
destination channel: destination state at most the expected state when
compared as integers, connection hops equal to the expected single-hop
list, and the destination counterparty either without a channel id or
matching the driver's source channel id and port id exactly. -/
def destinationCompatible (c : Channel) (expected_state : State)
    (dst_channel : ChannelEnd) : Prop :=
  dst_channel.state.asU32 ≤ expected_state.asU32
  ∧ dst_channel.connection_hops = [c.b_side.connection_id]
  ∧ (dst_channel.remote.channel_id = none
     ∨ (dst_channel.remote.channel_id = c.a_side.channel_id
        ∧ dst_channel.remote.port_id = c.a_side.port_id))

instance (c : Channel) (s : State) (d : ChannelEnd) :
    Decidable (destinationCompatible c s d) := by
  unfold destinationCompatible; infer_instance

/-- The expected destination channel end built by
`validated_expected_channel` for a given highest state. -/
def validatedExpectedEnd (c : Channel) (highest_state : State)
    (dv : String) : ChannelEnd :=
  { state := highest_state
    ordering := c.ordering
    remote := { port_id := c.a_side.port_id, channel_id := c.a_side.channel_id }
    connection_hops := [c.b_side.connection_id]
    version := c.dst_version dv }

/-- The tail of `validated_expected_channel` once the destination channel
id and the highest state are resolved: the uninitialized check followed by
the compatibility check. -/
def validatedBody (c : Channel) (highest_state : State) (dv : String)
    (dst_channel_id : ChannelId) (dst_channel : ChannelEnd) :
    Except ChannelError ChannelEnd :=
  if dst_channel.state = State.uninitialized then
    Except.error ChannelError.missingChannelOnDestination
  else
    match check_destination_channel_state dst_channel_id dst_channel
        (validatedExpectedEnd c highest_state dv) with
    | Except.error e => Except.error e
    | Except.ok _ => Except.ok (validatedExpectedEnd c highest_state dv)

/-- A concrete handshake driver used to instantiate theorems on closed
inputs. -/
def sampleChannel : Channel :=
  { ordering := Order.unordered
    a_side := ⟨"chain-A", "client-a", "connection-a", "transfer",
      some "channel-0"⟩
    b_side := ⟨"chain-B", "client-b", "connection-b", "transfer",
      some "channel-1"⟩
    connection_delay := 0
    version := some "ics20-1" }

/-- A concrete queried channel end compatible with `sampleChannel`. -/
def sampleDstChannel : ChannelEnd :=
  { state := State.tryOpen
    ordering := Order.unordered
    remote := { port_id := "transfer", channel_id := some "channel-0" }
    connection_hops := ["connection-b"]
    version := "ics20-1" }

/-- Concrete channel handshake event attributes with every field
resolvable. -/
def sampleAttrs : ChannelAttributes :=
  { port_id := "transfer"
    channel_id := some "channel-0"
    connection_id := "connection-a"
    counterparty_port_id := "transfer"
    counterparty_channel_id := some "channel-1"
    counterparty_chain_id := some "chain-B"
    counterparty_client_id := some "client-b" }

/-- The OpenTry message `build_chan_open_try` produces for `sampleChannel`
and `sampleDstChannel`. -/
def sampleOpenTryMsg : MsgChannelOpenTry :=
  { port_id := "transfer"
    previous_channel_id := some "channel-0"
    counterparty_version := "ics20-1"
    channel :=
      { state := State.tryOpen
        ordering := Order.unordered
        remote := { port_id := "transfer", channel_id := some "channel-0" }
        connection_hops := ["connection-b"]
        version := "ics20-1" } }


/-! ## Helper lemmas -/

theorem check_destination_ok_iff (cid : ChannelId)
    (existing expected : ChannelEnd) :
    check_destination_channel_state cid existing expected = Except.ok ()
    ↔ (existing.state.asU32 ≤ expected.state.asU32
       ∧ existing.connection_hops = expected.connection_hops
       ∧ (existing.remote.channel_id = none
          ∨ (existing.remote.channel_id = expected.remote.channel_id
             ∧ existing.remote.port_id = expected.remote.port_id))) := by
  unfold check_destination_channel_state
  dsimp only
  split
  next hcond =>
    simp only [Bool.and_eq_true, decide_eq_true_eq, beq_iff_eq,
      Bool.or_eq_true, Option.isNone_iff_eq_none] at hcond
    constructor
    · intro _; tauto
    · intro _; rfl
  next hcond =>
    simp only [Bool.and_eq_true, decide_eq_true_eq, beq_iff_eq,
      Bool.or_eq_true, Option.isNone_iff_eq_none] at hcond
    constructor
    · intro h; exact Except.noConfusion h
    · intro h; exact absurd (by tauto) hcond

theorem check_destination_not_ok (cid : ChannelId)
    (existing expected : ChannelEnd)
    (h : check_destination_channel_state cid existing expected ≠ Except.ok ()) :
    check_destination_channel_state cid existing expected
      = Except.error (ChannelError.channelAlreadyExist cid) := by
  unfold check_destination_channel_state at h ⊢
  dsimp only at h ⊢
  split
  next hc => exact absurd (by rw [if_pos hc]) h
  next hc => rfl

theorem validated_eq (c : Channel) (mt : ChannelMsgType) (dv : String)
    (cid : ChannelId) (dst_channel : ChannelEnd)
    (hcid : c.b_side.channel_id = some cid)
    (hmt : mt ≠ ChannelMsgType.openTry) :
    c.validated_expected_channel mt dv (Except.ok dst_channel)
      = validatedBody c (claimedHighestState mt) dv cid dst_channel := by
  cases mt
  case openTry => exact absurd rfl hmt
  all_goals
    unfold Channel.validated_expected_channel validatedBody
      validatedExpectedEnd claimedHighestState
    rw [hcid]

theorem validatedBody_spec (c : Channel) (hs : State) (dv : String)
    (cid : ChannelId) (dst_channel : ChannelEnd) :
    (dst_channel.state = State.uninitialized →
      validatedBody c hs dv cid dst_channel
        = Except.error ChannelError.missingChannelOnDestination)
    ∧ (dst_channel.state ≠ State.uninitialized →
        destinationCompatible c hs dst_channel →
        ∃ r, validatedBody c hs dv cid dst_channel = Except.ok r)
    ∧ (dst_channel.state ≠ State.uninitialized →
        ¬ destinationCompatible c hs dst_channel →
        validatedBody c hs dv cid dst_channel
          = Except.error (ChannelError.channelAlreadyExist cid)) := by
  unfold validatedBody
  refine ⟨fun h => by rw [if_pos h], fun hne hcompat => ?_,
    fun hne hincompat => ?_⟩
  · have hok : check_destination_channel_state cid dst_channel
        (validatedExpectedEnd c hs dv) = Except.ok () :=
      (check_destination_ok_iff cid dst_channel
        (validatedExpectedEnd c hs dv)).mpr hcompat
    rw [if_neg hne, hok]
    exact ⟨_, rfl⟩
  · have hnok : check_destination_channel_state cid dst_channel
        (validatedExpectedEnd c hs dv) ≠ Except.ok () := by
      rw [Ne, check_destination_ok_iff]
      exact fun hc => hincompat hc
    rw [if_neg hne, check_destination_not_ok _ _ _ hnok]

theorem pushEvent_preserve (workers : Object → Bool) (m : PerObject)
    (o : Object) (e : IbcEvent)
    (hm : ∀ o' es, (o', es) ∈ m → ∀ u, IbcEvent.updateClient u ∈ es →
      workers o' = true)
    (hcase : (∀ u, e ≠ IbcEvent.updateClient u) ∨ workers o = true) :
    ∀ o' es, (o', es) ∈ pushEvent m o e → ∀ u,
      IbcEvent.updateClient u ∈ es → workers o' = true := by
  induction m with
  | nil =>
    intro o' es hmem u hu
    simp only [pushEvent, List.mem_singleton, Prod.mk.injEq] at hmem
    obtain ⟨rfl, rfl⟩ := hmem
    simp only [List.mem_singleton] at hu
    rcases hcase with hne | hw
    · exact absurd hu.symm (hne u)
    · exact hw
  | cons hd tl ih =>
    intro o' es hmem u hu
    obtain ⟨o₀, es₀⟩ := hd
    rw [pushEvent] at hmem
    by_cases h00 : o₀ = o
    · rw [if_pos h00] at hmem
      rcases List.mem_cons.mp hmem with hhead | htail
      · simp only [Prod.mk.injEq] at hhead
        obtain ⟨rfl, rfl⟩ := hhead
        rcases List.mem_append.mp hu with h1 | h2
        · exact hm o' es₀ (List.mem_cons_self _ _) u h1
        · simp only [List.mem_singleton] at h2
          rcases hcase with hne | hw
          · exact absurd h2.symm (hne u)
          · exact h00 ▸ hw
      · exact hm o' es (List.mem_cons_of_mem _ htail) u hu
    · rw [if_neg h00] at hmem
      rcases List.mem_cons.mp hmem with hhead | htail
      · simp only [Prod.mk.injEq] at hhead
        obtain ⟨rfl, rfl⟩ := hhead
        exact hm o' es (List.mem_cons_self _ _) u hu
      · exact ih (fun a b hab => hm a b (List.mem_cons_of_mem _ hab)) o' es
          htail u hu

theorem collect_event_preserve (workers : Object → Bool)
    (collected : CollectedEvents) (e : IbcEvent) (enabled : Bool)
    (ctor : Unit → Option Object)
    (hm : ∀ o' es, (o', es) ∈ collected.per_object → ∀ u,
      IbcEvent.updateClient u ∈ es → workers o' = true)
    (hcase : (∀ u, e ≠ IbcEvent.updateClient u)
      ∨ (∀ o, ctor () = some o → workers o = true)) :
    ∀ o' es, (o', es) ∈ (collect_event collected e enabled ctor).per_object →
      ∀ u, IbcEvent.updateClient u ∈ es → workers o' = true := by
  unfold collect_event
  by_cases hen : enabled = true
  · rw [if_pos hen]
    cases hctor : ctor () with
    | none => exact hm
    | some o =>
      exact pushEvent_preserve workers collected.per_object o e hm
        (hcase.imp id (fun h => h o hctor))
  · rw [if_neg hen]
    exact hm

theorem collect_events_step_preserve (mode : ModeConfig)
    (workers : Object → Bool) (src : ChainId)
    (collected : CollectedEvents) (e : IbcEvent)
    (hm : ∀ o' es, (o', es) ∈ collected.per_object → ∀ u,
      IbcEvent.updateClient u ∈ es → workers o' = true) :
    ∀ o' es,
      (o', es) ∈ (collect_events_step mode workers src collected e).per_object →
      ∀ u, IbcEvent.updateClient u ∈ es → workers o' = true := by
  cases e with
  | newBlock h => exact hm
  | updateClient u =>
    refine collect_event_preserve workers collected _ _ _ hm (Or.inr ?_)
    intro o hctor
    cases hfu : Object.for_update_client u src with
    | none => rw [hfu] at hctor; exact absurd hctor (by simp)
    | some obj =>
      rw [hfu] at hctor
      have hctor2 : (if workers obj = true then some obj else none) = some o :=
        hctor
      by_cases hw : workers obj = true
      · rw [if_pos hw] at hctor2
        obtain rfl := Option.some.inj hctor2
        exact hw
      · rw [if_neg hw] at hctor2
        exact absurd hctor2 (by simp)
  | openInitConnection a =>
    exact collect_event_preserve workers collected _ _ _ hm
      (Or.inl (fun u h => IbcEvent.noConfusion h))
  | openTryConnection a =>
    exact collect_event_preserve workers collected _ _ _ hm
      (Or.inl (fun u h => IbcEvent.noConfusion h))
  | openAckConnection a =>
    exact collect_event_preserve workers collected _ _ _ hm
      (Or.inl (fun u h => IbcEvent.noConfusion h))
  | openInitChannel a =>
    exact collect_event_preserve workers collected _ _ _ hm
      (Or.inl (fun u h => IbcEvent.noConfusion h))
  | openTryChannel a =>
    exact collect_event_preserve workers collected _ _ _ hm
      (Or.inl (fun u h => IbcEvent.noConfusion h))
  | openAckChannel a =>
    refine collect_event_preserve workers _ _ _ _ ?_
      (Or.inl (fun u h => IbcEvent.noConfusion h))
    refine collect_event_preserve workers _ _ _ _ ?_
      (Or.inl (fun u h => IbcEvent.noConfusion h))
    exact collect_event_preserve workers collected _ _ _ hm
      (Or.inl (fun u h => IbcEvent.noConfusion h))
  | openConfirmChannel a =>
    refine collect_event_preserve workers _ _ _ _ ?_
      (Or.inl (fun u h => IbcEvent.noConfusion h))
    exact collect_event_preserve workers collected _ _ _ hm
      (Or.inl (fun u h => IbcEvent.noConfusion h))
  | sendPacket p =>
    exact collect_event_preserve workers collected _ _ _ hm
      (Or.inl (fun u h => IbcEvent.noConfusion h))
  | timeoutPacket p =>
    exact collect_event_preserve workers collected _ _ _ hm
      (Or.inl (fun u h => IbcEvent.noConfusion h))
  | writeAcknowledgement p =>
    exact collect_event_preserve workers collected _ _ _ hm
      (Or.inl (fun u h => IbcEvent.noConfusion h))
  | closeInitChannel a =>
    exact collect_event_preserve workers collected _ _ _ hm
      (Or.inl (fun u h => IbcEvent.noConfusion h))
  | chainError m => exact hm
  | other => exact hm

theorem collect_events_fold_preserve (mode : ModeConfig)
    (workers : Object → Bool) (src : ChainId) (events : List IbcEvent) :
    ∀ collected : CollectedEvents,
      (∀ o' es, (o', es) ∈ collected.per_object → ∀ u,
        IbcEvent.updateClient u ∈ es → workers o' = true) →
      ∀ o' es,
        (o', es) ∈ (events.foldl (collect_events_step mode workers src)
          collected).per_object →
        ∀ u, IbcEvent.updateClient u ∈ es → workers o' = true := by
  induction events with
  | nil => intro c h; exact h
  | cons e rest ih =>
    intro c h
    exact ih _ (collect_events_step_preserve mode workers src c e h)

theorem pushEvent_keys (m : PerObject) (o : Object) (e : IbcEvent) :
    ∀ o', o' ∈ (pushEvent m o e).map Prod.fst →
      o' ∈ m.map Prod.fst ∨ o' = o := by
  induction m with
  | nil =>
    intro o' h
    simp [pushEvent] at h
    exact Or.inr h
  | cons hd tl ih =>
    intro o' h
    obtain ⟨o₀, es₀⟩ := hd
    rw [pushEvent] at h
    by_cases h00 : o₀ = o
    · rw [if_pos h00] at h
      simp only [List.map_cons, List.mem_cons] at h ⊢
      rcases h with h1 | h2
      · exact Or.inl (Or.inl h1)
      · exact Or.inl (Or.inr h2)
    · rw [if_neg h00] at h
      simp only [List.map_cons, List.mem_cons] at h ⊢
      rcases h with h1 | h2
      · exact Or.inl (Or.inl h1)
      · rcases ih o' h2 with ha | hb
        · exact Or.inl (Or.inr ha)
        · exact Or.inr hb

theorem collect_event_keys (workers : Object → Bool)
    (collected : CollectedEvents) (e : IbcEvent) (enabled : Bool)
    (ctor : Unit → Option Object)
    (hm : ∀ o ∈ collected.per_object.map Prod.fst, workers o = true)
    (hc : ∀ o, ctor () = some o → workers o = true) :
    ∀ o ∈ (collect_event collected e enabled ctor).per_object.map Prod.fst,
      workers o = true := by
  unfold collect_event
  by_cases hen : enabled = true
  · rw [if_pos hen]
    cases hctor : ctor () with
    | none => exact hm
    | some o0 =>
      intro o h
      rcases pushEvent_keys collected.per_object o0 e o h with h1 | h2
      · exact hm o h1
      · exact h2 ▸ hc o0 hctor
  · rw [if_neg hen]
    exact hm

theorem collect_events_step_keys_update (mode : ModeConfig)
    (workers : Object → Bool) (src : ChainId)
    (collected : CollectedEvents) (u : UpdateClientAttributes)
    (hm : ∀ o ∈ collected.per_object.map Prod.fst, workers o = true) :
    ∀ o ∈ (collect_events_step mode workers src collected
        (IbcEvent.updateClient u)).per_object.map Prod.fst,
      workers o = true := by
  refine collect_event_keys workers collected _ _ _ hm ?_
  intro o hctor
  cases hfu : Object.for_update_client u src with
  | none => rw [hfu] at hctor; exact absurd hctor (by simp)
  | some obj =>
    rw [hfu] at hctor
    have hctor2 : (if workers obj = true then some obj else none) = some o :=
      hctor
    by_cases hw : workers obj = true
    · rw [if_pos hw] at hctor2
      obtain rfl := Option.some.inj hctor2
      exact hw
    · rw [if_neg hw] at hctor2
      exact absurd hctor2 (by simp)

theorem collect_events_fold_keys_update (mode : ModeConfig)
    (workers : Object → Bool) (src : ChainId) (events : List IbcEvent) :
    (∀ e ∈ events, ∃ u, e = IbcEvent.updateClient u) →
    ∀ collected : CollectedEvents,
      (∀ o ∈ collected.per_object.map Prod.fst, workers o = true) →
      ∀ o ∈ (events.foldl (collect_events_step mode workers src)
          collected).per_object.map Prod.fst,
        workers o = true := by
  induction events with
  | nil => intro _ c h; exact h
  | cons e rest ih =>
    intro hall c h
    obtain ⟨u, rfl⟩ := hall e (List.mem_cons_self _ _)
    exact ih (fun x hx => hall x (List.mem_cons_of_mem _ hx)) _
      (collect_events_step_keys_update mode workers src c u h)

theorem initSubscriptionsLoop_fst_nil_iff (chains : List ChainBootOutcome) :
    ∀ registry : List ChainId,
      (initSubscriptionsLoop registry chains).1 = []
      ↔ (registry = [] ∧ ∀ c ∈ chains, c.spawn_ok = false) := by
  induction chains with
  | nil => intro registry; simp [initSubscriptionsLoop]
  | cons c rest ih =>
    intro registry
    unfold initSubscriptionsLoop
    by_cases hmem : c.id ∈ registry
    · rw [if_pos hmem]
      dsimp only
      rw [ih registry]
      constructor
      · rintro ⟨rfl, _⟩
        exact absurd hmem (List.not_mem_nil _)
      · rintro ⟨rfl, _⟩
        exact absurd hmem (List.not_mem_nil _)
    · rw [if_neg hmem]
      by_cases hspawn : c.spawn_ok = true
      · rw [if_pos hspawn]
        dsimp only
        rw [ih (registry ++ [c.id])]
        constructor
        · rintro ⟨happ, _⟩
          exact absurd happ (by simp)
        · rintro ⟨rfl, hall⟩
          exact absurd hspawn (by simp [hall c (List.mem_cons_self _ _)])
      · rw [if_neg hspawn]
        rw [ih registry]
        simp only [Bool.not_eq_true] at hspawn
        constructor
        · rintro ⟨rfl, hall⟩
          refine ⟨rfl, ?_⟩
          intro d hd
          rcases List.mem_cons.mp hd with rfl | hd2
          · exact hspawn
          · exact hall d hd2
        · rintro ⟨rfl, hall⟩
          exact ⟨rfl, fun d hd => hall d (List.mem_cons_of_mem _ hd)⟩

theorem initSubscriptionsLoop_snd (chains : List ChainBootOutcome) :
    ∀ registry : List ChainId,
      (∀ c ∈ chains, c.id ∉ registry) →
      (chains.map (fun c => c.id)).Nodup →
      (initSubscriptionsLoop registry chains).2
        = (chains.filter (fun c => c.spawn_ok && c.subscribe_ok)).map
            (fun c => c.id) := by
  induction chains with
  | nil => intro registry _ _; simp [initSubscriptionsLoop]
  | cons c rest ih =>
    intro registry hnotin hnodup
    simp only [List.map_cons, List.nodup_cons] at hnodup
    obtain ⟨hcid, hnodup2⟩ := hnodup
    unfold initSubscriptionsLoop
    have hmem : c.id ∉ registry := hnotin c (List.mem_cons_self _ _)
    rw [if_neg hmem]
    by_cases hspawn : c.spawn_ok = true
    · rw [if_pos hspawn]
      have hnotin2 : ∀ d ∈ rest, d.id ∉ registry ++ [c.id] := by
        intro d hd
        simp only [List.mem_append, List.mem_singleton]
        rintro (h1 | h2)
        · exact hnotin d (List.mem_cons_of_mem _ hd) h1
        · exact hcid (h2 ▸ List.mem_map_of_mem (fun c => c.id) hd)
      have hrec := ih (registry ++ [c.id]) hnotin2 hnodup2
      by_cases hsub : c.subscribe_ok = true
      · simp [List.filter_cons, hspawn, hsub, hrec]
      · simp only [Bool.not_eq_true] at hsub
        simp [List.filter_cons, hspawn, hsub, hrec]
    · rw [if_neg hspawn]
      simp only [Bool.not_eq_true] at hspawn
      have hrec := ih registry
        (fun d hd => hnotin d (List.mem_cons_of_mem _ hd)) hnodup2
      simp [List.filter_cons, hspawn, hrec]

/-! ## Claim theorems -/

/-- Claim C1. The claim states that in the finalize step, when querying
both ends yields states (A = TryOpen, B = Init), the driver submits the
OpenAck message to chain B, confirms the expected state progression, and
then submits the OpenConfirm message to chain A. Evaluating the embedded
finalize step on that state pair (with every submission succeeding and
the progression confirmed) shows the code submits the OpenAck to chain A
instead, through `self.flipped()`, before submitting the OpenConfirm to
chain A: the Ack target contradicts the claim and the source's own branch
comment. -/
theorem c1_finalize_tryopen_init_submits_ack_to_chain_a :
    do_chan_open_finalize
      { query := fun n =>
          match n with
          | 0 => (State.tryOpen, State.init)
          | 1 => (State.tryOpen, State.open_)
          | _ => (State.open_, State.open_)
        send := fun _ => Except.ok () }
      = ([⟨ChainTag.chainA, HandshakeMsg.ack⟩,
          ⟨ChainTag.chainA, HandshakeMsg.confirm⟩], Except.ok ()) := rfl

/-- Claim C2. An `OpenAckChannel` event fed to `collect_events` is
collected into up to three `per_object` entries, gated independently:
a Client object under clients mode, a Packet object under packets mode,
and a Channel object under channels mode; with all modes enabled a single
event from chain A yields exactly those three entries, each with source
chain A; an `OpenConfirmChannel` event yields only the Client and Packet
entries and never a Channel entry. -/
theorem c2_open_ack_channel_three_collections (mode : ModeConfig)
    (workers : Object → Bool) (a : ChannelAttributes) (A : ChainId)
    (ht : Nat) (ch : ChannelId) (dstc : ChainId) (cl : ClientId)
    (hch : a.channel_id = some ch)
    (hcc : a.counterparty_chain_id = some dstc)
    (hcl : a.counterparty_client_id = some cl) :
    (collect_events mode workers A
        ⟨A, ht, [IbcEvent.openAckChannel a]⟩).per_object
      = ((if mode.clients_enabled then
            [(Object.client ⟨dstc, cl, A⟩, [IbcEvent.openAckChannel a])]
          else [])
         ++ (if mode.packets_enabled then
            [(Object.packet ⟨A, ch, a.port_id, dstc⟩,
              [IbcEvent.openAckChannel a])]
          else [])
         ++ (if mode.channels_enabled then
            [(Object.channel ⟨A, ch, a.port_id, dstc⟩,
              [IbcEvent.openAckChannel a])]
          else []))
    ∧ (Object.client ⟨dstc, cl, A⟩).src_chain_id = A
    ∧ (Object.packet ⟨A, ch, a.port_id, dstc⟩).src_chain_id = A
    ∧ (Object.channel ⟨A, ch, a.port_id, dstc⟩).src_chain_id = A
    ∧ (collect_events mode workers A
        ⟨A, ht, [IbcEvent.openConfirmChannel a]⟩).per_object
      = ((if mode.clients_enabled then
            [(Object.client ⟨dstc, cl, A⟩, [IbcEvent.openConfirmChannel a])]
          else [])
         ++ (if mode.packets_enabled then
            [(Object.packet ⟨A, ch, a.port_id, dstc⟩,
              [IbcEvent.openConfirmChannel a])]
          else []))
    ∧ (∀ co : ChannelObj,
        Object.channel co ∉ ((collect_events mode workers A
          ⟨A, ht, [IbcEvent.openConfirmChannel a]⟩).per_object.map
            Prod.fst)) := by
  obtain ⟨mc, mconn, mch, mp⟩ := mode
  refine ⟨?_, rfl, rfl, rfl, ?_, ?_⟩
  · cases mc <;> cases mp <;> cases mch <;>
      simp [collect_events, collect_events_step, collect_event, pushEvent,
        Object.client_from_chan_open_events,
        Object.packet_from_chan_open_events,
        Object.channel_from_chan_open_events, CollectedEvents.new,
        hch, hcc, hcl]
  · cases mc <;> cases mp <;>
      simp [collect_events, collect_events_step, collect_event, pushEvent,
        Object.client_from_chan_open_events,
        Object.packet_from_chan_open_events,
        CollectedEvents.new, hch, hcc, hcl]
  · intro co
    cases mc <;> cases mp <;>
      simp [collect_events, collect_events_step, collect_event, pushEvent,
        Object.client_from_chan_open_events,
        Object.packet_from_chan_open_events,
        CollectedEvents.new, hch, hcc, hcl]

/-- Witness for claim C2: with all modes enabled, a single
`OpenAckChannel` event from chain A produces exactly the Client, Packet
and Channel entries. -/
theorem c2_open_ack_channel_three_collections_witness :
    (collect_events ⟨true, true, true, true⟩ (fun _ => false) "chain-A"
        ⟨"chain-A", 1, [IbcEvent.openAckChannel sampleAttrs]⟩).per_object
      = [(Object.client ⟨"chain-B", "client-b", "chain-A"⟩,
          [IbcEvent.openAckChannel sampleAttrs]),
         (Object.packet ⟨"chain-A", "channel-0", "transfer", "chain-B"⟩,
          [IbcEvent.openAckChannel sampleAttrs]),
         (Object.channel ⟨"chain-A", "channel-0", "transfer", "chain-B"⟩,
          [IbcEvent.openAckChannel sampleAttrs])] := by
  have h := (c2_open_ack_channel_three_collections ⟨true, true, true, true⟩
    (fun _ => false) sampleAttrs "chain-A" 1 "channel-0" "chain-B" "client-b"
    rfl rfl rfl).1
  simpa using h

/-- Claim C3. Before Ack, Confirm and CloseConfirm,
`validated_expected_channel` queries the destination channel and: fails
with `missing_channel_on_destination` when the destination state is
`Uninitialized`; otherwise succeeds exactly when the destination state
compared as an integer is at most the expected state (`TryOpen` for
OpenAck and OpenConfirm, `Open` for CloseConfirm), the connection hops
equal the expected hops, and the destination counterparty channel id is
unset or both counterparty channel id and port id match the driver's;
in every other case it fails with `channel_already_exist(channel_id)`. -/
theorem c3_validated_expected_channel_spec (c : Channel)
    (msg_type : ChannelMsgType) (dv : String) (cid : ChannelId)
    (dst_channel : ChannelEnd)
    (hcid : c.b_side.channel_id = some cid)
    (hmsg : msg_type ≠ ChannelMsgType.openTry) :
    (dst_channel.state = State.uninitialized →
      c.validated_expected_channel msg_type dv (Except.ok dst_channel)
        = Except.error ChannelError.missingChannelOnDestination)
    ∧ (dst_channel.state ≠ State.uninitialized →
        destinationCompatible c (claimedHighestState msg_type) dst_channel →
        ∃ r, c.validated_expected_channel msg_type dv (Except.ok dst_channel)
          = Except.ok r)
    ∧ (dst_channel.state ≠ State.uninitialized →
        ¬ destinationCompatible c (claimedHighestState msg_type) dst_channel →
        c.validated_expected_channel msg_type dv (Except.ok dst_channel)
          = Except.error (ChannelError.channelAlreadyExist cid)) := by
  rw [validated_eq c msg_type dv cid dst_channel hcid hmsg]
  exact validatedBody_spec c (claimedHighestState msg_type) dv cid dst_channel

/-- Witness for claim C3: a compatible TryOpen destination channel lets
the OpenAck validation succeed on concrete inputs. -/
theorem c3_validated_expected_channel_spec_witness :
    sampleChannel.b_side.channel_id = some "channel-1"
    ∧ ChannelMsgType.openAck ≠ ChannelMsgType.openTry
    ∧ sampleDstChannel.state ≠ State.uninitialized
    ∧ destinationCompatible sampleChannel
        (claimedHighestState ChannelMsgType.openAck) sampleDstChannel
    ∧ ∃ r, sampleChannel.validated_expected_channel ChannelMsgType.openAck
        "ics20-1" (Except.ok sampleDstChannel) = Except.ok r :=
  ⟨rfl, by decide, by decide, by decide,
    (c3_validated_expected_channel_spec sampleChannel ChannelMsgType.openAck
      "ics20-1" "channel-1" sampleDstChannel rfl (by decide)).2.1
      (by decide) (by decide)⟩

/-- Claim C4. When both channel ends are already `Open`, the finalize step
returns success without submitting any message to either chain. -/
theorem c4_finalize_open_open_no_submission (o : FinalizeOracle)
    (h : o.query 0 = (State.open_, State.open_)) :
    do_chan_open_finalize o = ([], Except.ok ()) := by
  unfold do_chan_open_finalize
  rw [h]

/-- Witness for claim C4 on a concrete oracle whose first state query
returns both ends `Open`. -/
theorem c4_finalize_open_open_no_submission_witness :
    do_chan_open_finalize
      ⟨fun _ => (State.open_, State.open_), fun _ => Except.ok ()⟩
      = ([], Except.ok ()) :=
  c4_finalize_open_open_no_submission _ rfl

/-- Claim C5. An `UpdateClient` event is collected into `per_object` only
when a worker for the corresponding Client object already exists, so
processing a batch of `UpdateClient` events never causes a new worker to
be spawned by `process_batch`'s `get_or_spawn` calls. -/
theorem c5_update_client_requires_existing_worker (mode : ModeConfig)
    (workers : Object → Bool) (src : ChainId) (batch : EventBatch) :
    (∀ o es, (o, es) ∈ (collect_events mode workers src batch).per_object →
      ∀ u, IbcEvent.updateClient u ∈ es → workers o = true)
    ∧ ((∀ e ∈ batch.events, ∃ u, e = IbcEvent.updateClient u) →
        newlySpawnedWorkers workers (collect_events mode workers src batch)
          = []) := by
  constructor
  · intro o es h u hu
    exact collect_events_fold_preserve mode workers src batch.events
      (CollectedEvents.new batch.height batch.chain_id)
      (fun o' es' h' => absurd h' (List.not_mem_nil _)) o es h u hu
  · intro hall
    unfold newlySpawnedWorkers
    have hkeys := collect_events_fold_keys_update mode workers src
      batch.events hall (CollectedEvents.new batch.height batch.chain_id)
      (fun o h => absurd h (List.not_mem_nil _))
    rw [List.filter_eq_nil_iff]
    intro o ho
    simp [hkeys o ho]

/-- Witness for claim C5: with a live worker for the client object, the
collected `UpdateClient` event points at that worker and an all-update
batch spawns nothing. -/
theorem c5_update_client_requires_existing_worker_witness :
    ((fun _ : Object => true)
        (Object.client ⟨"chain-A", "client-1", "chain-B"⟩) = true)
    ∧ newlySpawnedWorkers (fun _ => true)
        (collect_events ⟨true, true, true, true⟩ (fun _ => true) "chain-A"
          ⟨"chain-A", 1,
            [IbcEvent.updateClient ⟨"client-1", some "chain-B"⟩]⟩)
      = [] := by
  constructor
  · exact (c5_update_client_requires_existing_worker
      ⟨true, true, true, true⟩ (fun _ => true) "chain-A"
      ⟨"chain-A", 1, [IbcEvent.updateClient ⟨"client-1", some "chain-B"⟩]⟩).1
      (Object.client ⟨"chain-A", "client-1", "chain-B"⟩)
      [IbcEvent.updateClient ⟨"client-1", some "chain-B"⟩]
      (by decide)
      ⟨"client-1", some "chain-B"⟩ (by decide)
  · exact (c5_update_client_requires_existing_worker
      ⟨true, true, true, true⟩ (fun _ => true) "chain-A"
      ⟨"chain-A", 1, [IbcEvent.updateClient ⟨"client-1", some "chain-B"⟩]⟩).2
      (by
        intro e he
        simp only [List.mem_singleton] at he
        exact ⟨⟨"client-1", some "chain-B"⟩, he⟩)

/-- Counterexample for claim C6. The claim says `init_subscriptions`
returns `NoChainsAvailable` exactly when no chain succeeded. With a single
configured chain whose runtime spawns but whose `subscribe` fails, no
chain succeeded (the subscription list is empty), yet the function returns
success because the registry is non-empty. -/
theorem c6_counterexample_no_error_without_success :
    init_subscriptions [] [⟨"chain-1", true, false⟩]
      = Except.ok (["chain-1"], [])
    ∧ init_subscriptions [] [⟨"chain-1", true, false⟩]
      ≠ Except.error SupervisorError.noChainsAvailable := by
  have h1 : init_subscriptions [] [⟨"chain-1", true, false⟩]
      = Except.ok (["chain-1"], []) := rfl
  refine ⟨h1, ?_⟩
  rw [h1]
  exact fun h => Except.noConfusion h

/-- Claim C6 as amended. `init_subscriptions` skips any configured chain
for which `get_or_spawn` or `subscribe` fails and returns
`NoChainsAvailable` exactly when the registry holds no chain handle
afterwards, which from an empty registry means every configured chain
failed `get_or_spawn`; a chain that spawns but fails `subscribe`
contributes no subscription yet prevents the error. At startup the error
propagates and aborts the run, while a rebuild after a config change that
returns `NoChainsAvailable` keeps the previous subscription set and any
other rebuild error is fatal. -/
theorem c6_init_subscriptions_amended :
    (∀ (registry : List ChainId) (chains : List ChainBootOutcome),
      init_subscriptions registry chains
          = Except.error SupervisorError.noChainsAvailable
        ↔ (registry = [] ∧ ∀ c ∈ chains, c.spawn_ok = false))
    ∧ (∀ chains : List ChainBootOutcome,
        (chains.map (fun c => c.id)).Nodup →
        (∃ c ∈ chains, c.spawn_ok = true) →
        ∃ registryF, init_subscriptions [] chains
          = Except.ok (registryF,
              (chains.filter (fun c => c.spawn_ok && c.subscribe_ok)).map
                (fun c => c.id)))
    ∧ (∀ (registry : List ChainId) (chains : List ChainBootOutcome),
        init_subscriptions registry chains
            = Except.error SupervisorError.noChainsAvailable →
        startupSubscriptions registry chains
          = Except.error SupervisorError.noChainsAvailable)
    ∧ (∀ old_subs : List ChainId,
        applySubscriptionRebuild old_subs
            (Except.error SupervisorError.noChainsAvailable)
          = Except.ok old_subs)
    ∧ (∀ (old_subs registryF subs : List ChainId),
        applySubscriptionRebuild old_subs (Except.ok (registryF, subs))
          = Except.ok subs)
    ∧ (∀ (old_subs : List ChainId) (cid : ChainId),
        applySubscriptionRebuild old_subs
            (Except.error (SupervisorError.spawnFailed cid))
          = Except.error (SupervisorError.spawnFailed cid)) := by
  refine ⟨?_, ?_, ?_, fun _ => rfl, fun _ _ _ => rfl, fun _ _ => rfl⟩
  · intro registry chains
    unfold init_subscriptions
    by_cases hz : (initSubscriptionsLoop registry chains).1.length = 0
    · rw [if_pos hz]
      rw [← initSubscriptionsLoop_fst_nil_iff chains registry,
        ← List.length_eq_zero]
      simp [hz]
    · rw [if_neg hz]
      rw [← initSubscriptionsLoop_fst_nil_iff chains registry,
        ← List.length_eq_zero]
      constructor
      · intro h; exact Except.noConfusion h
      · intro h; exact absurd h hz
  · intro chains hnodup hex
    refine ⟨(initSubscriptionsLoop [] chains).1, ?_⟩
    unfold init_subscriptions
    have hne : ¬ (initSubscriptionsLoop [] chains).1.length = 0 := by
      rw [List.length_eq_zero, initSubscriptionsLoop_fst_nil_iff]
      rintro ⟨_, hall⟩
      obtain ⟨c, hc, hcs⟩ := hex
      rw [hall c hc] at hcs
      exact Bool.noConfusion hcs
    rw [if_neg hne, initSubscriptionsLoop_snd chains []
      (fun c _ => List.not_mem_nil _) hnodup]
  · intro registry chains h
    unfold startupSubscriptions
    rw [h]

/-- Witness for the amended claim C6: one configured chain that spawns but
fails to subscribe yields an empty subscription list without the
`NoChainsAvailable` error. -/
theorem c6_init_subscriptions_amended_witness :
    (([⟨"chain-1", true, false⟩] : List ChainBootOutcome).map
        (fun c => c.id)).Nodup
    ∧ (∃ c ∈ ([⟨"chain-1", true, false⟩] : List ChainBootOutcome),
        c.spawn_ok = true)
    ∧ (∃ registryF, init_subscriptions [] [⟨"chain-1", true, false⟩]
        = Except.ok (registryF,
            (([⟨"chain-1", true, false⟩] : List ChainBootOutcome).filter
              (fun c => c.spawn_ok && c.subscribe_ok)).map (fun c => c.id))) :=
  ⟨by decide, by decide,
    c6_init_subscriptions_amended.2.1 [⟨"chain-1", true, false⟩]
      (by decide) (by decide)⟩

/-- Claim C7. The claim states that each of the four open-handshake
submissions maps a `ChainError` event in the `send_msgs` response to a
`TxResponse` error. Evaluating the embedded event scans on a response
consisting of one `ChainError` event shows Init, Try and Ack do return
`TxResponse`, but the Confirm scan returns `InvalidEvent` instead: the
code deviates from the claim (and from its three sibling handlers) for
OpenConfirm. -/
theorem c7_chain_error_tx_response_eval :
    scan_chan_open_init_events [IbcEvent.chainError "boom"]
        = Except.error (ChannelError.txResponse "boom")
    ∧ scan_chan_open_try_events [IbcEvent.chainError "boom"]
        = Except.error (ChannelError.txResponse "boom")
    ∧ scan_chan_open_ack_events [IbcEvent.chainError "boom"]
        = Except.error (ChannelError.txResponse "boom")
    ∧ scan_chan_open_confirm_events [IbcEvent.chainError "boom"]
        = Except.error (ChannelError.invalidEvent (IbcEvent.chainError "boom"))
    ∧ scan_chan_open_confirm_events [IbcEvent.chainError "boom"]
        ≠ Except.error (ChannelError.txResponse "boom") :=
  ⟨rfl, rfl, rfl, rfl, by simp [scan_chan_open_confirm_events]⟩

/-- Claim C8. On success, the OpenTry message's previous-channel-id is the
queried source channel's counterparty channel id when that is set, and
otherwise the b-side channel id held in the driver. -/
theorem c8_open_try_previous_channel_id (c : Channel)
    (src_channel : ChannelEnd) (dv sv : String) (msg : MsgChannelOpenTry)
    (hok : c.build_chan_open_try src_channel dv sv = Except.ok msg) :
    (src_channel.remote.channel_id = none →
      msg.previous_channel_id = c.b_side.channel_id)
    ∧ (∀ cid, src_channel.remote.channel_id = some cid →
        msg.previous_channel_id = some cid) := by
  unfold Channel.build_chan_open_try at hok
  cases hca : c.a_side.channel_id with
  | none => rw [hca] at hok; exact absurd hok (by simp)
  | some cid0 =>
    rw [hca] at hok
    by_cases hport : src_channel.remote.port_id = c.b_side.port_id
    · simp only [hport, ne_eq, not_true_eq_false, if_false,
        Except.ok.injEq] at hok
      subst hok
      constructor
      · intro hnone; simp [hnone]
      · intro cid hsome; simp [hsome]
    · simp [hport] at hok

/-- Witness for claim C8 on concrete inputs whose queried source channel
has its counterparty channel id set. -/
theorem c8_open_try_previous_channel_id_witness :
    sampleChannel.build_chan_open_try sampleDstChannel "ics20-1" "ics20-1"
      = Except.ok sampleOpenTryMsg
    ∧ ((sampleDstChannel.remote.channel_id = none →
        sampleOpenTryMsg.previous_channel_id = sampleChannel.b_side.channel_id)
       ∧ (∀ cid, sampleDstChannel.remote.channel_id = some cid →
          sampleOpenTryMsg.previous_channel_id = some cid)) :=
  ⟨rfl, c8_open_try_previous_channel_id sampleChannel sampleDstChannel
    "ics20-1" "ics20-1" sampleOpenTryMsg rfl⟩

/-- Claim C9. Marshalling a `HeightQuery` onto the wire maps `Latest` to
the sentinel height 0 and `Specific(h)` to `h.revision_height`, for both
the block-height and the metadata-value conversions. -/
theorem c9_height_query_marshalling (h : Height)
    (hbound : h.revision_height ≤ i64MaxNat) :
    heightQueryToBlockHeight HeightQuery.latest = Except.ok 0
    ∧ heightQueryToBlockHeight (HeightQuery.specific h)
        = Except.ok h.revision_height
    ∧ heightQueryToMetadataValue HeightQuery.latest = Except.ok (Nat.repr 0)
    ∧ heightQueryToMetadataValue (HeightQuery.specific h)
        = Except.ok (Nat.repr h.revision_height) := by
  refine ⟨by norm_num [heightQueryToBlockHeight, i64MaxNat], ?_, rfl, rfl⟩
  unfold heightQueryToBlockHeight
  simp [hbound]

/-- Witness for claim C9 at a concrete height. -/
theorem c9_height_query_marshalling_witness :
    (⟨1, 5⟩ : Height).revision_height ≤ i64MaxNat
    ∧ (heightQueryToBlockHeight HeightQuery.latest = Except.ok 0
       ∧ heightQueryToBlockHeight (HeightQuery.specific ⟨1, 5⟩)
           = Except.ok (⟨1, 5⟩ : Height).revision_height
       ∧ heightQueryToMetadataValue HeightQuery.latest
           = Except.ok (Nat.repr 0)
       ∧ heightQueryToMetadataValue (HeightQuery.specific ⟨1, 5⟩)
           = Except.ok (Nat.repr (⟨1, 5⟩ : Height).revision_height)) :=
  ⟨by decide, c9_height_query_marshalling ⟨1, 5⟩ (by decide)⟩

/-- Claim C10. In `collect_events`, an `UpdateClient` event is collected
only when clients mode is enabled: with clients mode disabled the event is
dropped even when a live worker exists for the corresponding Client
object. -/
theorem c10_update_client_dropped_when_clients_disabled (mode : ModeConfig)
    (workers : Object → Bool) (src cid : ChainId) (ht : Nat)
    (u : UpdateClientAttributes)
    (hdisabled : mode.clients_enabled = false) :
    (collect_events mode workers src
      ⟨cid, ht, [IbcEvent.updateClient u]⟩).per_object = [] := by
  simp [collect_events, collect_events_step, collect_event,
    CollectedEvents.new, hdisabled]

/-- Witness for claim C10: clients mode disabled and a worker map that
contains every object still collects nothing for an `UpdateClient`
event. -/
theorem c10_update_client_dropped_when_clients_disabled_witness :
    (⟨false, true, true, true⟩ : ModeConfig).clients_enabled = false
    ∧ (collect_events ⟨false, true, true, true⟩ (fun _ => true) "chain-A"
        ⟨"chain-A", 1,
          [IbcEvent.updateClient ⟨"client-1", some "chain-B"⟩]⟩).per_object
      = [] :=
  ⟨rfl, c10_update_client_dropped_when_clients_disabled
    ⟨false, true, true, true⟩ (fun _ => true) "chain-A" "chain-A" 1
    ⟨"client-1", some "chain-B"⟩ rfl⟩

end IbcRelayer
